import Mathlib

/-!
Shallow embedding of the address-book service in `app/main.py`.

The persisted store (the SQLite table `addresses`) is modelled as a
`List Address` in storage iteration order (rowid order).  Each HTTP
handler becomes a pure function from the store to the pair of the store
after the handler's SQL statements ran and the handler's response.

Faithfulness notes, traced from the source:
* The `INSERT` statement in `create_address` names only the columns
  `street,city,state,country,latitude,longitude` — the `id` column is
  omitted, so SQLite assigns the rowid itself (one larger than the
  largest rowid in use, `1` on an empty table); the caller-supplied
  `address.id` never reaches the table.  This is embedded exactly as
  written via `next_rowid`.
* The connection never sets `row_factory`, so every row a cursor yields
  is a plain tuple.  Hence `Address(**row)` (in `read_addresses`,
  `read_address` and the distance loop's append) raises
  `TypeError: argument after ** must be a mapping, not tuple`, and
  `row['latitude']` / `row['longitude']` in the distance loop raises
  `TypeError: tuple indices must be integers or slices, not str`.
  An unhandled exception in a handler surfaces to the HTTP caller as a
  500 Internal Server Error; both crashes are embedded as
  `Except.error (500, "Internal Server Error")` (`address_of_row`,
  `row_coords`), raised at exactly the point in the control flow where
  the source raises.
* `UPDATE ... SET street=?,...,longitude=? WHERE id=?` overwrites every
  non-id column of every matching row and is a silent no-op when no row
  matches; the echoed response is the request body, built by pydantic
  before the handler runs, so it does not crash.
* `DELETE FROM addresses WHERE id=?` removes all matching rows and the
  handler returns the message string unconditionally.
* `read_address` does `fetchone` on `SELECT * FROM addresses WHERE id=?`
  (the first matching row in iteration order); when no row comes back it
  raises `HTTPException(404, "Address not found")`, modelled as
  `Except.error (404, "Address not found")`; when a row comes back it
  runs `Address(**row)`, which raises the TypeError above.
* `read_addresses_within_distance` scans all rows; its `for` loop is
  embedded as the structural recursion `nearby_addresses`, whose body
  evaluates `row['latitude']`/`row['longitude']` first (crashing on any
  row), then the haversine comparison, then the `Address(**row)` append.
* The haversine computation is the `haversine(origin, coords,
  unit=Unit.KILOMETERS)` of the `haversine` PyPI library: convert the
  four coordinates to radians and return
  `2 * 6371.0088 * asin(sqrt(sin(Δlat/2)² + cos lat1 · cos lat2 · sin(Δlng/2)²))`,
  embedded over `Float` with the same operation structure.
-/

/-- The row/record type of the `addresses` table, matching the pydantic
model `Address` in `app/main.py` field for field. -/
structure Address where
  id : Int
  street : String
  city : String
  state : String
  country : String
  latitude : Float
  longitude : Float

/-- Average Earth radius in kilometers, the `Unit.KILOMETERS` radius
constant of the `haversine` library (6371.0088). -/
def avg_earth_radius_km : Float := 6371.0088

/-- `math.radians`: degrees to radians. -/
def radians (x : Float) : Float := x * (3.141592653589793 / 180.0)

/-- `haversine(point1, point2, unit=Unit.KILOMETERS)` from the
`haversine` library, on a spherical Earth, result in kilometers. -/
def haversine (point1 point2 : Float × Float) : Float :=
  let lat1 := radians point1.1
  let lng1 := radians point1.2
  let lat2 := radians point2.1
  let lng2 := radians point2.2
  let lat := lat2 - lat1
  let lng := lng2 - lng1
  let d := Float.sin (lat * 0.5) ^ 2 +
    Float.cos lat1 * Float.cos lat2 * Float.sin (lng * 0.5) ^ 2
  2 * avg_earth_radius_km * Float.asin (Float.sqrt d)

/-- The rowid SQLite assigns when an `INSERT` supplies no value for the
`id integer PRIMARY KEY` column: one larger than the largest rowid in
the table, `1` when the table is empty. -/
def next_rowid (conn : List Address) : Int :=
  match conn with
  | [] => 1
  | r :: rs => (rs.foldl (fun m a => max m a.id) r.id) + 1

/-- `Address(**row)` on a row fetched through the default `row_factory`:
`row` is a plain tuple, so `**row` raises
`TypeError: argument after ** must be a mapping, not tuple`, which the
server surfaces as a 500 Internal Server Error. -/
def address_of_row (_row : Address) : Except (Nat × String) Address :=
  Except.error (500, "Internal Server Error")

/-- `row['latitude'], row['longitude']` on a tuple row (main.py's
distance loop): string indexing of a tuple raises
`TypeError: tuple indices must be integers or slices, not str`,
surfaced as a 500 Internal Server Error. -/
def row_coords (_row : Address) : Except (Nat × String) (Float × Float) :=
  Except.error (500, "Internal Server Error")

/-- `POST /addresses/` (`create_address`): runs
`INSERT INTO addresses(street,city,state,country,latitude,longitude) VALUES(?,?,?,?,?,?)`
— the `id` column is omitted, so the stored row gets `next_rowid` as its
id — then echoes the input record unchanged as the response. -/
def create_address (address : Address) (conn : List Address) :
    List Address × Address :=
  (conn ++ [{ address with id := next_rowid conn }], address)

/-- `[Address(**row) for row in rows]` (main.py:85): marshal each
fetched row left to right; the first `Address(**row)` on a tuple row
raises, so any non-empty row list yields the 500. -/
def marshal_rows : List Address → Except (Nat × String) (List Address)
  | [] => Except.ok []
  | row :: rows => do
    let a ← address_of_row row
    let rest ← marshal_rows rows
    pure (a :: rest)

/-- `GET /addresses/` (`read_addresses`): `SELECT * FROM addresses`,
then the list comprehension marshalling every row. -/
def read_addresses (conn : List Address) :
    List Address × Except (Nat × String) (List Address) :=
  (conn, marshal_rows conn)

/-- `GET /addresses/{address_id}` (`read_address`): `fetchone` on
`SELECT * FROM addresses WHERE id=?`; when a row comes back the handler
runs `Address(**row)` (which raises on the tuple row), and when none
does it raises `HTTPException(status_code=404, detail="Address not found")`. -/
def read_address (address_id : Int) (conn : List Address) :
    List Address × Except (Nat × String) Address :=
  (conn,
    match conn.find? (fun r => r.id == address_id) with
    | some row => address_of_row row
    | none => Except.error (404, "Address not found"))

/-- The `SET` clause of `update_address`: overwrite every non-id column
of a row from the request body, keeping the row's id. -/
def overwrite_fields (address : Address) (r : Address) : Address :=
  { r with
    street := address.street, city := address.city, state := address.state,
    country := address.country, latitude := address.latitude,
    longitude := address.longitude }

/-- `PUT /addresses/{address_id}` (`update_address`): runs
`UPDATE addresses SET street=?,...,longitude=? WHERE id=?` — every row
whose id matches gets all non-id columns overwritten, and when no row
matches nothing changes — then echoes the input record as the response. -/
def update_address (address_id : Int) (address : Address)
    (conn : List Address) : List Address × Address :=
  (conn.map (fun r =>
      if r.id == address_id then overwrite_fields address r else r),
   address)

/-- `DELETE /addresses/{address_id}` (`delete_address`): runs
`DELETE FROM addresses WHERE id=?` and unconditionally responds with
`"Address with id {address_id} deleted"`. -/
def delete_address (address_id : Int) (conn : List Address) :
    List Address × String :=
  (conn.filter (fun r => r.id != address_id),
   "Address with id " ++ toString address_id ++ " deleted")

/-- The `for row in rows` loop of `read_addresses_within_distance`:
for each row, read `row['latitude'], row['longitude']` (which raises on
a tuple row), compare the haversine distance with `max_distance`, and
append `Address(**row)` when within range, preserving scan order. -/
def nearby_addresses (origin : Float × Float) (max_distance : Float) :
    List Address → Except (Nat × String) (List Address)
  | [] => Except.ok []
  | row :: rows => do
    let coords ← row_coords row
    if haversine origin coords ≤ max_distance then
      let a ← address_of_row row
      let rest ← nearby_addresses origin max_distance rows
      pure (a :: rest)
    else
      nearby_addresses origin max_distance rows

/-- `GET /addresses/distance/` (`read_addresses_within_distance`):
`SELECT * FROM addresses`, then the haversine filter loop over the rows. -/
def read_addresses_within_distance (latitude longitude max_distance : Float)
    (conn : List Address) : List Address × Except (Nat × String) (List Address) :=
  (conn, nearby_addresses (latitude, longitude) max_distance conn)

/-! ### Concrete data used by counterexample evaluations and witnesses -/

/-- A concrete stored row whose id is 1. -/
def row_one : Address :=
  { id := 1, street := "10 Downing Street", city := "London", state := "LDN",
    country := "UK", latitude := 51.5034, longitude := -0.1276 }

/-- A concrete one-row store. -/
def store_one : List Address := [row_one]

/-- A concrete request body carrying id 9. -/
def body_record : Address :=
  { id := 9, street := "1600 Pennsylvania Ave", city := "Washington",
    state := "DC", country := "USA", latitude := 38.8977, longitude := -77.0365 }

/-- A concrete create input carrying the caller-chosen id 5. -/
def create_input_five : Address :=
  { id := 5, street := "221B Baker Street", city := "London", state := "LDN",
    country := "UK", latitude := 51.5237, longitude := -0.1585 }

/-- A concrete create input reusing the already-stored id 1. -/
def duplicate_body : Address :=
  { id := 1, street := "48 Leicester Square", city := "London", state := "LDN",
    country := "UK", latitude := 51.5103, longitude := -0.1300 }

/-! ### Claim theorems -/

/-- C1: the claim says create with a caller-chosen id followed by a read
by that id returns the input record, identifier included.  On the code
this fails: the `INSERT` omits the `id` column, so creating
`create_input_five` (id 5) in an empty store stores a row whose id is
the auto-assigned rowid 1, and `GET /addresses/5` then answers 404.
This theorem evaluates the embedded code at that failing input. -/
theorem c1_create_then_read_loses_caller_id :
    (create_address create_input_five []).1 =
      [{ create_input_five with id := 1 }] ∧
    (read_address 5 (create_address create_input_five []).1).2 =
      Except.error (404, "Address not found") :=
  ⟨rfl, rfl⟩

/-- C2: the claim says inserting a record whose id already exists fails
with a UNIQUE-constraint error.  On the code it cannot: the `INSERT`
omits the `id` column, so creating `duplicate_body` (id 1) over a store
already holding `row_one` (id 1) succeeds, leaves `row_one` untouched
and appends a fresh row with the auto-assigned rowid 2.  This theorem
evaluates the embedded code at that failing input. -/
theorem c2_duplicate_id_insert_succeeds :
    (create_address duplicate_body store_one).1 =
      [row_one, { duplicate_body with id := 2 }] ∧
    (create_address duplicate_body store_one).2 = duplicate_body :=
  ⟨rfl, rfl⟩

/-- C4: the claim says a read of a present id answers 200 with the
stored record.  On the code the success branch cannot complete: the
fetched row is a tuple (no `row_factory`), so `Address(**row)` raises a
TypeError and the caller sees a 500, never the record; only the
404-when-absent half behaves as claimed.  This theorem evaluates the
embedded code at the failing input (id 1 present in the one-row store)
and at an absent id. -/
theorem c4_read_present_id_crashes :
    (read_address 1 store_one).2 = Except.error (500, "Internal Server Error") ∧
    (read_address 9 store_one).2 = Except.error (404, "Address not found") :=
  ⟨rfl, rfl⟩

/-- C5: the claim says an update of a present id is followed by a read
returning the new field values.  On the code the `UPDATE` itself does
overwrite the non-id columns of the matching row, but the subsequent
`GET /addresses/{id}` crashes marshalling the tuple row
(`Address(**row)` raises a TypeError), so the new values are never
returned.  This theorem evaluates the embedded code at that failing
input: the table holds the overwritten row, the read-back is a 500. -/
theorem c5_update_then_read_crashes :
    (update_address 1 body_record store_one).1 =
      [{ body_record with id := 1 }] ∧
    (read_address 1 (update_address 1 body_record store_one).1).2 =
      Except.error (500, "Internal Server Error") :=
  ⟨rfl, rfl⟩

/-- C7: the claim says the proximity filter returns exactly the records
within the haversine distance.  On the code, the first loop iteration
of any non-empty scan evaluates `row['latitude']` on a tuple row, which
raises a TypeError, so every query over a non-empty store answers a 500
and the filtered sequence is never produced, whatever the origin and
maximum distance. -/
theorem c7_distance_filter_crashes_on_rows
    (latitude longitude max_distance : Float) (row : Address)
    (rows : List Address) :
    (read_addresses_within_distance latitude longitude max_distance
        (row :: rows)).2 =
      Except.error (500, "Internal Server Error") :=
  rfl

/-- C8: over the empty store the proximity filter's loop body never
runs, so it returns the empty sequence for every origin latitude,
origin longitude and maximum distance, raising nothing. -/
theorem c8_distance_filter_empty_store
    (latitude longitude max_distance : Float) :
    (read_addresses_within_distance latitude longitude max_distance []).2 =
      Except.ok [] :=
  rfl

/-- C9: delete is idempotent — running `DELETE /addresses/{id}` twice
leaves exactly the store (and response) that running it once leaves. -/
theorem c9_delete_idempotent (address_id : Int) (conn : List Address) :
    delete_address address_id (delete_address address_id conn).1 =
      delete_address address_id conn := by
  simp [delete_address, List.filter_filter]

/-- C10: the three read operations — list-all, read-by-id and the
proximity filter — leave the store exactly as it was. -/
theorem c10_reads_leave_store_unchanged (address_id : Int)
    (latitude longitude max_distance : Float) (conn : List Address) :
    (read_addresses conn).1 = conn ∧
    (read_address address_id conn).1 = conn ∧
    (read_addresses_within_distance latitude longitude max_distance conn).1 = conn :=
  ⟨rfl, rfl, rfl⟩

/-- C3: a `PUT /addresses/{id}` whose id matches no stored record
completes successfully, echoes the request body, and is a silent no-op:
the store is returned unchanged, and list-all afterwards still holds no
record with that id. -/
theorem c3_update_missing_id_noop (address_id : Int) (address : Address)
    (conn : List Address) (h : address_id ∉ conn.map Address.id) :
    update_address address_id address conn = (conn, address) ∧
    ∀ r ∈ (update_address address_id address conn).1, r.id ≠ address_id := by
  have hne : ∀ r ∈ conn, r.id ≠ address_id := by
    intro r hr hc
    exact h (List.mem_map.mpr ⟨r, hr, hc⟩)
  have hmap : conn.map (fun r =>
      if r.id == address_id then overwrite_fields address r else r) = conn := by
    have : conn.map (fun r =>
        if r.id == address_id then overwrite_fields address r else r) =
        conn.map id := by
      apply List.map_congr_left
      intro a ha
      simp [hne a ha]
    rw [this, List.map_id]
  refine ⟨?_, ?_⟩
  · unfold update_address
    rw [hmap]
  · intro r hr
    unfold update_address at hr
    rw [hmap] at hr
    exact hne r hr

/-- Witness for C3: updating the missing id 9 over the one-row store
leaves it untouched and echoes the body. -/
theorem c3_update_missing_id_noop_witness :
    ((9 : Int) ∉ store_one.map Address.id) ∧
    (update_address 9 body_record store_one = (store_one, body_record) ∧
      ∀ r ∈ (update_address 9 body_record store_one).1, r.id ≠ 9) :=
  ⟨by decide, c3_update_missing_id_noop 9 body_record store_one (by decide)⟩

/-- C6: `DELETE /addresses/{id}` unconditionally answers 200 with the
message "Address with id {id} deleted"; afterwards a read of that id
yields the NotFound 404, and when the id was absent the store is
returned exactly unchanged. -/
theorem c6_delete_spec (address_id : Int) (conn : List Address) :
    (delete_address address_id conn).2 =
      "Address with id " ++ toString address_id ++ " deleted" ∧
    (read_address address_id (delete_address address_id conn).1).2 =
      Except.error (404, "Address not found") ∧
    (address_id ∉ conn.map Address.id →
      (delete_address address_id conn).1 = conn) := by
  refine ⟨rfl, ?_, ?_⟩
  · unfold delete_address read_address
    have hnone : (conn.filter (fun r => r.id != address_id)).find?
        (fun r => r.id == address_id) = none := by
      rw [List.find?_eq_none]
      intro x hx
      have hkeep := List.of_mem_filter hx
      simp at hkeep ⊢
      exact hkeep
    simp [hnone]
  · intro h
    unfold delete_address
    rw [List.filter_eq_self.mpr]
    intro a ha
    have : a.id ≠ address_id := fun hc => h (List.mem_map.mpr ⟨a, ha, hc⟩)
    simp [this]

/-- Witness for C6: deleting the absent id 9 from the one-row store
answers the fixed message, read-after-delete 404s, store unchanged. -/
theorem c6_delete_spec_witness :
    ((9 : Int) ∉ store_one.map Address.id) ∧
    (delete_address 9 store_one).2 =
      "Address with id " ++ toString (9 : Int) ++ " deleted" ∧
    (read_address 9 (delete_address 9 store_one).1).2 =
      Except.error (404, "Address not found") ∧
    (delete_address 9 store_one).1 = store_one :=
  ⟨by decide, (c6_delete_spec 9 store_one).1, (c6_delete_spec 9 store_one).2.1,
   (c6_delete_spec 9 store_one).2.2 (by decide)⟩
